/-
  Verification of the budget-alert and financial-summary engine of the
  personal-finance-dashboard repository.

  Shallow embedding of:
    - src/server/src/handlers/get_summary.ts   (getSummary, getDateRange)
    - src/server/src/handlers/get_budgets.ts   (getBudgetAlerts)
  over the data model of src/server/src/db/schema.ts.

  Modelling conventions:
    - Monetary amounts are `numeric(12,2)` columns in Postgres and are summed
      by SQL `SUM` exactly; they are embedded as rationals (ℚ).
    - `timestamp` values are embedded as explicit calendar datetimes
      (year, month, day, millisecond-of-day); JavaScript `Date` comparison
      (epoch milliseconds) coincides with lexicographic comparison of these
      components for valid calendar datetimes, which is how `dle` is defined.
    - JS `new Date(y, m, 0)` (day 0 of 0-based month m) is the last calendar
      day of 1-based month m, embedded via `daysInMonth`.
    - SQL result sets are embedded as lists; `GROUP BY` keys are taken in
      first-occurrence order (the spec leaves group order unspecified).
    - `throw new Error(msg)` is embedded as `Except.error msg`.
-/
import Mathlib

namespace FinanceDash

/-- Transaction type enum (`transaction_type` in db/schema.ts). -/
inductive TxType where
  | income
  | expense
deriving DecidableEq, Repr

/-- Budget period enum (`budget_period` in db/schema.ts). -/
inductive Period where
  | monthly
  | yearly
deriving DecidableEq, Repr

/-- A calendar datetime: what a JS `Date` denotes, by components.
`ms` is the millisecond within the day (0 .. 86399999). -/
structure DateTime where
  year : Int
  month : Nat
  day : Nat
  ms : Nat
deriving DecidableEq, Repr

/-- JS `Date` ordering (epoch milliseconds): for calendar datetimes this is
lexicographic on (year, month, day, ms).  Embeds drizzle's `lte`/`gte`
comparisons on the `date` column. -/
def dle (a b : DateTime) : Bool :=
  (a.year < b.year) ||
    (a.year == b.year &&
      ((a.month < b.month) ||
        (a.month == b.month &&
          ((a.day < b.day) || (a.day == b.day && a.ms ≤ b.ms)))))

/-- Gregorian leap-year rule (as implemented by JS `Date` rollover). -/
def isLeap (y : Int) : Bool :=
  y % 4 == 0 && (y % 100 != 0 || y % 400 == 0)

/-- Number of days of month `m` (1-based) in year `y`: the day denoted by
JS `new Date(y, m, 0)`.  Months outside 1..12 never arise. -/
def daysInMonth (y : Int) (m : Nat) : Nat :=
  if m = 2 then (if isLeap y then 29 else 28)
  else if m = 4 ∨ m = 6 ∨ m = 9 ∨ m = 11 then 30
  else 31

/-- A row of the `transactions` table (fields that flow into the two
handlers; `description` and audit timestamps do not). -/
structure Transaction where
  id : Nat
  user_id : Nat
  category_id : Option Nat
  type : TxType
  amount : ℚ
  date : DateTime
deriving DecidableEq, Repr

/-- A row of the `categories` table (fields used by the handlers). -/
structure Category where
  id : Nat
  user_id : Nat
  name : String
deriving DecidableEq, Repr

/-- A row of the `budgets` table (fields used by the handlers). -/
structure Budget where
  id : Nat
  user_id : Nat
  category_id : Option Nat
  amount : ℚ
  period : Period
deriving DecidableEq, Repr

/-- The database state visible to the two handlers. -/
structure DB where
  transactions : List Transaction
  categories : List Category
  budgets : List Budget
deriving DecidableEq, Repr

/-- SQL `SUM(amount)` with `COALESCE(..., 0)` over a result set. -/
def sumAmt (l : List Transaction) : ℚ :=
  (l.map (·.amount)).sum

/-- The categories `LEFT JOIN` used by both handlers: looks a category up by
`id` alone (no user filter in the SQL) and projects its name; `NULL` when the
foreign key is null or dangling. -/
def lookupName (db : DB) (cid : Option Nat) : Option String :=
  cid.bind (fun c => (db.categories.find? (fun cat => cat.id == c)).map (·.name))

/-- The `GROUP BY` keys of a result set, in first-occurrence order (the spec
leaves the group order unspecified / implementation-defined). -/
def firstOccs {α : Type} [DecidableEq α] (l : List α) : List α :=
  l.foldl (fun acc x => if acc.contains x then acc else acc ++ [x]) []

/-- JS `Math.round(x * 100) / 100`: round half-up at the 2nd decimal
(`Math.round` rounds half toward +∞, i.e. ⌊x + 1/2⌋). -/
def round2 (q : ℚ) : ℚ :=
  ((⌊q * 100 + 1 / 2⌋ : Int) : ℚ) / 100

/-! ## getSummary (src/server/src/handlers/get_summary.ts) -/

/-- Input type `GetSummaryInput` (schema.ts): zod constrains `month`, when present, to an
integer in 1..12. -/
structure GetSummaryInput where
  user_id : Nat
  period : Period
  year : Int
  month : Option Nat
deriving DecidableEq, Repr

/-- One entry of the category breakdown of a `Summary`. -/
structure CategoryBreakdown where
  category_id : Option Nat
  category_name : Option String
  total_amount : ℚ
  transaction_count : Nat
deriving DecidableEq, Repr

/-- One entry of `monthly_data`. -/
structure MonthEntry where
  month : Nat
  income : ℚ
  expenses : ℚ
deriving DecidableEq, Repr

/-- The `Summary` result type. -/
structure Summary where
  total_income : ℚ
  total_expenses : ℚ
  net_income : ℚ
  categories : List CategoryBreakdown
  monthly_data : Option (List MonthEntry)
deriving DecidableEq, Repr

/-- Function `getDateRange` of get_summary.ts.  `!input.month` is JS falsiness:
true when `month` is `undefined` (and for the number 0, which zod's
`min(1)` excludes from the type).  Monthly range: `new Date(y, m-1, 1)`
through `new Date(y, m, 0, 23, 59, 59, 999)`; yearly: Jan 1 through
Dec 31 23:59:59.999. -/
def getDateRange (input : GetSummaryInput) :
    Except String (DateTime × DateTime) :=
  match input.period with
  | Period.monthly =>
      if input.month.getD 0 = 0 then
        Except.error "Month is required for monthly summaries"
      else
        let m := input.month.getD 0
        Except.ok (⟨input.year, m, 1, 0⟩,
                   ⟨input.year, m, daysInMonth input.year m, 86399999⟩)
  | Period.yearly =>
      Except.ok (⟨input.year, 1, 1, 0⟩, ⟨input.year, 12, 31, 86399999⟩)

/-- The base `conditions` of get_summary.ts: user match and date range. -/
def txMatch (uid : Nat) (s e : DateTime) (t : Transaction) : Bool :=
  t.user_id == uid && dle s t.date && dle t.date e

/-- One row of the grouped monthly query
(`EXTRACT(MONTH FROM date), type, SUM(amount)` grouped by month and type):
the key together with its group sum. -/
def monthlyRow (txs : List Transaction) (g : Nat × TxType) :
    Nat × TxType × ℚ :=
  (g.1, g.2, sumAmt (txs.filter (fun t => t.date.month == g.1 && t.type == g.2)))

/-- One step of the fill loop of get_summary.ts: a grouped row writes its
sum into its month's `income` or `expenses` field.  (Source indexes
`monthlyData[result.month - 1]`, the unique entry whose `month` equals the
row's month.) -/
def applyRow (r : Nat × TxType × ℚ) (en : MonthEntry) : MonthEntry :=
  if en.month == r.1 then
    match r.2.1 with
    | TxType.income => { en with income := r.2.2 }
    | TxType.expense => { en with expenses := r.2.2 }
  else en

/-- The fill loop of get_summary.ts: 12 zero entries for months 1..12, then
each grouped row is written into its month's entry. -/
def fillMonthly (rows : List (Nat × TxType × ℚ)) : List MonthEntry :=
  rows.foldl
    (fun md r => md.map (applyRow r))
    ((List.range 12).map (fun i => ⟨i + 1, 0, 0⟩))

/-- The summary record built by get_summary.ts once the date range is
resolved: totals per type, category breakdown (grouped by category with a
left-joined name), and — for yearly inputs — the 12-month series. -/
def mkSummary (db : DB) (input : GetSummaryInput) (s e : DateTime) : Summary :=
      let total_income :=
        sumAmt (db.transactions.filter
          (fun t => txMatch input.user_id s e t && t.type == TxType.income))
      let total_expenses :=
        sumAmt (db.transactions.filter
          (fun t => txMatch input.user_id s e t && t.type == TxType.expense))
      let ctxs := db.transactions.filter (txMatch input.user_id s e)
      let categories :=
        (firstOccs (ctxs.map (·.category_id))).map (fun k =>
          { category_id := k
            category_name := lookupName db k
            total_amount := sumAmt (ctxs.filter (fun t => t.category_id == k))
            transaction_count :=
              (ctxs.filter (fun t => t.category_id == k)).length })
      let monthly_data :=
        if input.period == Period.yearly then
          some (fillMonthly
            ((firstOccs (ctxs.map (fun t => (t.date.month, t.type)))).map
              (monthlyRow ctxs)))
        else none
      { total_income := total_income
        total_expenses := total_expenses
        net_income := total_income - total_expenses
        categories := categories
        monthly_data := monthly_data }

/-- Handler `getSummary` of get_summary.ts: resolve the date range (propagating the
validation error) and build the summary. -/
def getSummary (db : DB) (input : GetSummaryInput) : Except String Summary :=
  match getDateRange input with
  | Except.error e => Except.error e
  | Except.ok (s, e) => Except.ok (mkSummary db input s e)

/-! ## getBudgetAlerts (src/server/src/handlers/get_budgets.ts) -/

/-- The `BudgetAlert` result type. -/
structure BudgetAlert where
  budget_id : Nat
  category_name : Option String
  budget_amount : ℚ
  spent_amount : ℚ
  percentage_used : ℚ
  period : Period
deriving DecidableEq, Repr

/-- Current-period date range of a budget, resolved against "now"
(`nowYear`, `nowMonth` = the system date's year and 1-based month).
Monthly: `new Date(y, m-1, 1)` .. `new Date(y, m, 0)` — note the end is the
last day at **midnight** (no time-of-day component in the source).
Yearly: `new Date(y, 0, 1)` .. `new Date(y, 11, 31)` — Dec 31 at midnight. -/
def alertRange (p : Period) (nowYear : Int) (nowMonth : Nat) :
    DateTime × DateTime :=
  match p with
  | Period.monthly =>
      (⟨nowYear, nowMonth, 1, 0⟩, ⟨nowYear, nowMonth, daysInMonth nowYear nowMonth, 0⟩)
  | Period.yearly =>
      (⟨nowYear, 1, 1, 0⟩, ⟨nowYear, 12, 31, 0⟩)

/-- The optional category condition pushed onto the spending query:
present exactly when the budget is category-specific; SQL `=` on a NULL
`category_id` does not match, hence `t.category_id == some c`. -/
def catMatch (bcat : Option Nat) (t : Transaction) : Bool :=
  match bcat with
  | none => true
  | some c => t.category_id == some c

/-- The `spent_amount` of one budget: SQL sum over the user's expense
transactions in the resolved range, category-filtered when applicable. -/
def spentAmount (db : DB) (uid : Nat) (b : Budget) (s e : DateTime) : ℚ :=
  sumAmt (db.transactions.filter (fun t =>
    t.user_id == uid && t.type == TxType.expense &&
    dle s t.date && dle t.date e && catMatch b.category_id t))

/-- The unrounded `percentageUsed` of get_budgets.ts line 109. -/
def rawPercentage (db : DB) (uid : Nat) (b : Budget)
    (nowYear : Int) (nowMonth : Nat) : ℚ :=
  let r := alertRange b.period nowYear nowMonth
  if b.amount > 0 then spentAmount db uid b r.1 r.2 / b.amount * 100 else 0

/-- Descending order on `percentage_used`, the comparator
`(a, b) => b.percentage_used - a.percentage_used` of get_budgets.ts. -/
def alertGE (a b : BudgetAlert) : Prop :=
  b.percentage_used ≤ a.percentage_used

instance : DecidableRel alertGE := fun a b =>
  inferInstanceAs (Decidable (b.percentage_used ≤ a.percentage_used))

instance : IsTotal BudgetAlert alertGE :=
  ⟨fun a b => (le_total b.percentage_used a.percentage_used).imp id id⟩

instance : IsTrans BudgetAlert alertGE :=
  ⟨fun _ _ _ hab hbc => le_trans hbc hab⟩

/-- One iteration of the budget loop of get_budgets.ts: resolve the
current-period range, compute the spend, and produce an alert exactly when
the (unrounded) percentage is ≥ 80; the reported `percentage_used` is the
rounded value. -/
def alertOf (db : DB) (uid : Nat) (nowYear : Int) (nowMonth : Nat)
    (b : Budget) : Option BudgetAlert :=
  let r := alertRange b.period nowYear nowMonth
  let spent := spentAmount db uid b r.1 r.2
  let pct : ℚ := if b.amount > 0 then spent / b.amount * 100 else 0
  if pct ≥ 80 then
    some { budget_id := b.id
           category_name := lookupName db b.category_id
           budget_amount := b.amount
           spent_amount := spent
           percentage_used := round2 pct
           period := b.period }
  else none

/-- Handler `getBudgetAlerts` of get_budgets.ts, with the wall clock ("now")
injected as (`nowYear`, `nowMonth`): for each of the user's budgets
(left-joined with its category name) compute the current-period spend,
keep the budget when the unrounded percentage is ≥ 80, and sort the alerts
by percentage descending. -/
def getBudgetAlerts (db : DB) (uid : Nat) (nowYear : Int) (nowMonth : Nat) :
    List BudgetAlert :=
  List.insertionSort alertGE
    ((db.budgets.filter (·.user_id == uid)).filterMap
      (alertOf db uid nowYear nowMonth))

/-- A structurally valid calendar datetime: what every value of a Postgres
`timestamp` column denotes. -/
def DateTime.Valid (d : DateTime) : Prop :=
  1 ≤ d.month ∧ d.month ≤ 12 ∧ 1 ≤ d.day ∧
    d.day ≤ daysInMonth d.year d.month ∧ d.ms < 86400000

instance (d : DateTime) : Decidable d.Valid := by
  unfold DateTime.Valid; infer_instance

/-! ## Basic lemmas about the embedded primitives -/

theorem dle_iff (a b : DateTime) :
    dle a b = true ↔
      a.year < b.year ∨ (a.year = b.year ∧
        (a.month < b.month ∨ (a.month = b.month ∧
          (a.day < b.day ∨ (a.day = b.day ∧ a.ms ≤ b.ms))))) := by
  simp [dle, Bool.or_eq_true, Bool.and_eq_true, decide_eq_true_eq]

theorem daysInMonth_bounds (y : Int) (m : Nat) :
    28 ≤ daysInMonth y m ∧ daysInMonth y m ≤ 31 := by
  unfold daysInMonth
  split
  · split <;> omega
  · split <;> omega

/-- A valid datetime lies in the embedded calendar-month range
(first day 00:00 .. last day 23:59:59.999) iff its year and month match. -/
theorem mem_monthRange {d : DateTime} (hv : d.Valid) (y : Int) (m : Nat) :
    (dle ⟨y, m, 1, 0⟩ d && dle d ⟨y, m, daysInMonth y m, 86399999⟩) = true ↔
      d.year = y ∧ d.month = m := by
  obtain ⟨hm1, hm2, hd1, hd2, hms⟩ := hv
  have hb := daysInMonth_bounds y m
  have hb' := daysInMonth_bounds d.year d.month
  simp only [Bool.and_eq_true, dle_iff]
  constructor
  · intro h
    omega
  · rintro ⟨hy, hm⟩
    rw [hy, hm] at hd2
    omega

/-- A valid datetime lies in the embedded calendar-year range
(Jan 1 00:00 .. Dec 31 23:59:59.999) iff its year matches. -/
theorem mem_yearRange {d : DateTime} (hv : d.Valid) (y : Int) :
    (dle ⟨y, 1, 1, 0⟩ d && dle d ⟨y, 12, 31, 86399999⟩) = true ↔
      d.year = y := by
  obtain ⟨hm1, hm2, hd1, hd2, hms⟩ := hv
  have hb' := daysInMonth_bounds d.year d.month
  simp only [Bool.and_eq_true, dle_iff]
  constructor
  · intro h
    omega
  · intro hy
    omega

theorem firstOccs_go_mem {α : Type} [DecidableEq α] (l : List α) :
    ∀ (acc : List α) (x : α),
      (x ∈ l.foldl (fun acc x => if acc.contains x then acc else acc ++ [x]) acc) ↔
        x ∈ acc ∨ x ∈ l := by
  induction l with
  | nil => simp
  | cons a l ih =>
      intro acc x
      simp only [List.foldl_cons, ih, List.mem_cons]
      by_cases ha : acc.contains a = true
      · rw [if_pos ha]
        have haa : a ∈ acc := by simpa using ha
        constructor
        · tauto
        · rintro (h | h | h)
          · tauto
          · subst h; tauto
          · tauto
      · rw [if_neg ha]
        simp only [List.mem_append, List.mem_singleton]
        tauto

theorem mem_firstOccs {α : Type} [DecidableEq α] (l : List α) (x : α) :
    x ∈ firstOccs l ↔ x ∈ l := by
  have h := firstOccs_go_mem l [] x
  simpa [firstOccs] using h

/-! ## Characterisation of the monthly-data fill loop -/

theorem foldl_map_comm {α β : Type} (g : β → α → α) (rows : List β)
    (md : List α) :
    rows.foldl (fun md r => md.map (g r)) md =
      md.map (fun e => rows.foldl (fun e r => g r e) e) := by
  induction rows generalizing md with
  | nil => simp
  | cons r rs ih =>
      simp only [List.foldl_cons, ih, List.map_map]
      rfl

theorem applyRow_month (r : Nat × TxType × ℚ) (en : MonthEntry) :
    (applyRow r en).month = en.month := by
  rcases r with ⟨m, ty, q⟩
  cases ty <;> simp only [applyRow] <;> split <;> rfl

/-- Folding the grouped rows over a single entry: each field ends up holding
the group sum of its (month, type) key when that key occurs among the rows,
and keeps its initial value otherwise.  `S` is the group-sum function the
rows were built from. -/
theorem applyRows_spec (S : Nat → TxType → ℚ) (rows : List (Nat × TxType × ℚ))
    (hS : ∀ r ∈ rows, r.2.2 = S r.1 r.2.1) (en : MonthEntry) :
    (rows.foldl (fun en r => applyRow r en) en).month = en.month ∧
    (rows.foldl (fun en r => applyRow r en) en).income =
      (if (en.month, TxType.income) ∈ rows.map (fun r => (r.1, r.2.1))
       then S en.month TxType.income else en.income) ∧
    (rows.foldl (fun en r => applyRow r en) en).expenses =
      (if (en.month, TxType.expense) ∈ rows.map (fun r => (r.1, r.2.1))
       then S en.month TxType.expense else en.expenses) := by
  induction rows generalizing en with
  | nil => simp
  | cons r rs ih =>
      obtain ⟨m, ty, q⟩ := r
      have hq : q = S m ty := hS (m, ty, q) (List.mem_cons_self _ _)
      have hrest : ∀ r ∈ rs, r.2.2 = S r.1 r.2.1 :=
        fun r hr => hS r (List.mem_cons_of_mem _ hr)
      simp only [List.foldl_cons, List.map_cons, List.mem_cons]
      by_cases hm : en.month = m
      · subst hm
        cases ty with
        | income =>
            have he : applyRow (en.month, TxType.income, q) en =
                { en with income := q } := by
              simp [applyRow]
            rw [he]
            obtain ⟨ih1, ih2, ih3⟩ := ih hrest { en with income := q }
            refine ⟨ih1, ?_, ?_⟩
            · rw [ih2]
              by_cases hmem :
                  (en.month, TxType.income) ∈ rs.map (fun r => (r.1, r.2.1))
              · simp [hmem]
              · simp [hmem, hq]
            · rw [ih3]
              have hx : ¬((en.month, TxType.expense) = (en.month, TxType.income)) := by
                intro hcon
                exact TxType.noConfusion (congrArg Prod.snd hcon)
              exact (if_congr (or_iff_right hx) rfl rfl).symm
        | expense =>
            have he : applyRow (en.month, TxType.expense, q) en =
                { en with expenses := q } := by
              simp [applyRow]
            rw [he]
            obtain ⟨ih1, ih2, ih3⟩ := ih hrest { en with expenses := q }
            refine ⟨ih1, ?_, ?_⟩
            · rw [ih2]
              have hx : ¬((en.month, TxType.income) = (en.month, TxType.expense)) := by
                intro hcon
                exact TxType.noConfusion (congrArg Prod.snd hcon)
              exact (if_congr (or_iff_right hx) rfl rfl).symm
            · rw [ih3]
              by_cases hmem :
                  (en.month, TxType.expense) ∈ rs.map (fun r => (r.1, r.2.1))
              · simp [hmem]
              · simp [hmem, hq]
      · have he : applyRow (m, ty, q) en = en := by
          cases ty <;> simp [applyRow, hm]
        rw [he]
        obtain ⟨ih1, ih2, ih3⟩ := ih hrest en
        have hne : ∀ ty' : TxType, ¬((en.month, ty') = (m, ty)) :=
          fun ty' hcon => hm (congrArg Prod.fst hcon)
        refine ⟨ih1, ?_, ?_⟩
        · rw [ih2]
          exact (if_congr (or_iff_right (hne TxType.income)) rfl rfl).symm
        · rw [ih3]
          exact (if_congr (or_iff_right (hne TxType.expense)) rfl rfl).symm

/-! ## Range resolution and filter lemmas -/

theorem getDateRange_monthly (uid : Nat) (y : Int) (m : Nat) (hm : m ≠ 0) :
    getDateRange ⟨uid, Period.monthly, y, some m⟩ =
      Except.ok (⟨y, m, 1, 0⟩, ⟨y, m, daysInMonth y m, 86399999⟩) := by
  simp [getDateRange, hm]

theorem getDateRange_yearly (input : GetSummaryInput)
    (hp : input.period = Period.yearly) :
    getDateRange input =
      Except.ok (⟨input.year, 1, 1, 0⟩, ⟨input.year, 12, 31, 86399999⟩) := by
  simp [getDateRange, hp]

theorem getSummary_eq_ok (db : DB) (input : GetSummaryInput) (s e : DateTime)
    (h : getDateRange input = Except.ok (s, e)) :
    getSummary db input = Except.ok (mkSummary db input s e) := by
  simp [getSummary, h]

theorem filter_user_and (l : List Transaction) (uid : Nat)
    (r : Transaction → Bool) :
    l.filter (fun t => (t.user_id == uid) && r t) =
      (l.filter (fun t => t.user_id == uid)).filter r := by
  rw [List.filter_filter]
  apply List.filter_congr
  intro t _
  cases hu : (t.user_id == uid) <;> cases hr : r t <;> simp [hu, hr]

/-- The user-and-range predicate of get_summary.ts, over a valid date,
holds iff the transaction belongs to the user and is dated in the given
calendar month. -/
theorem txMatch_monthly_iff {t : Transaction} (hv : t.date.Valid)
    (uid : Nat) (y : Int) (m : Nat) :
    txMatch uid ⟨y, m, 1, 0⟩ ⟨y, m, daysInMonth y m, 86399999⟩ t = true ↔
      t.user_id = uid ∧ t.date.year = y ∧ t.date.month = m := by
  unfold txMatch
  rw [Bool.and_assoc]
  simp only [Bool.and_eq_true, beq_iff_eq]
  rw [← Bool.and_eq_true, mem_monthRange hv y m]

/-- The user-and-range predicate of get_summary.ts, over a valid date,
holds iff the transaction belongs to the user and is dated in the given
calendar year. -/
theorem txMatch_yearly_iff {t : Transaction} (hv : t.date.Valid)
    (uid : Nat) (y : Int) :
    txMatch uid ⟨y, 1, 1, 0⟩ ⟨y, 12, 31, 86399999⟩ t = true ↔
      t.user_id = uid ∧ t.date.year = y := by
  unfold txMatch
  rw [Bool.and_assoc]
  simp only [Bool.and_eq_true, beq_iff_eq]
  rw [← Bool.and_eq_true, mem_yearRange hv y]

/-! ## C3: missing-month validation -/

/-- C3: getSummary fails with the validation error "Month is required for
monthly summaries" exactly when the period is monthly and `month` is
absent; a monthly request with a month in 1..12 succeeds, and a yearly
request never raises this error. -/
theorem summary_month_validation (db : DB) (uid : Nat) (y : Int) :
    getSummary db ⟨uid, Period.monthly, y, none⟩ =
      Except.error "Month is required for monthly summaries" ∧
    (∀ m : Nat, 1 ≤ m → m ≤ 12 →
      ∃ sm, getSummary db ⟨uid, Period.monthly, y, some m⟩ = Except.ok sm) ∧
    (∀ input : GetSummaryInput, input.period = Period.yearly →
      ∃ sm, getSummary db input = Except.ok sm) := by
  refine ⟨rfl, ?_, ?_⟩
  · intro m h1 _
    have hm : m ≠ 0 := by omega
    exact ⟨_, getSummary_eq_ok db _ _ _ (getDateRange_monthly uid y m hm)⟩
  · intro input hp
    exact ⟨_, getSummary_eq_ok db _ _ _ (getDateRange_yearly input hp)⟩

/-- Witness for C3 at concrete inputs. -/
theorem summary_month_validation_witness :
    getSummary ⟨[], [], []⟩ ⟨1, Period.monthly, 2024, none⟩ =
      Except.error "Month is required for monthly summaries" ∧
    (∃ sm, getSummary ⟨[], [], []⟩ ⟨1, Period.monthly, 2024, some 6⟩ =
      Except.ok sm) ∧
    (∃ sm, getSummary ⟨[], [], []⟩ ⟨1, Period.yearly, 2024, none⟩ =
      Except.ok sm) := by
  obtain ⟨h1, h2, h3⟩ := summary_month_validation ⟨[], [], []⟩ 1 2024
  exact ⟨h1, h2 6 (by norm_num) (by norm_num),
         h3 ⟨1, Period.yearly, 2024, none⟩ rfl⟩

/-! ## C8: alert list ordering -/

/-- C8: the list returned by getBudgetAlerts is sorted by `percentage_used`
in descending order (every entry is ≥ every later entry). -/
theorem alerts_sorted_desc (db : DB) (uid : Nat) (nowY : Int) (nowM : Nat) :
    List.Pairwise (fun a b : BudgetAlert =>
        b.percentage_used ≤ a.percentage_used)
      (getBudgetAlerts db uid nowY nowM) := by
  unfold getBudgetAlerts
  exact List.sorted_insertionSort alertGE _

/-! ## C6: spent-amount scoping -/

/-- C6: a transaction contributes to a budget's spent_amount exactly its
amount when it is the user's, expense-typed, inside the resolved period and
inside the budget's category scope, and nothing otherwise; in particular
income transactions never contribute, a category-scoped budget ignores
transactions of other categories, and an overall budget (null category)
counts every in-range expense of the user. -/
theorem spent_amount_scope (txs : List Transaction) (cats : List Category)
    (buds : List Budget) (uid : Nat) (b : Budget) (nowY : Int) (nowM : Nat)
    (t : Transaction) (s e : DateTime)
    (_hr : alertRange b.period nowY nowM = (s, e)) :
    spentAmount ⟨t :: txs, cats, buds⟩ uid b s e =
      (if t.user_id == uid && t.type == TxType.expense &&
          dle s t.date && dle t.date e && catMatch b.category_id t
       then t.amount else 0) +
      spentAmount ⟨txs, cats, buds⟩ uid b s e ∧
    (t.type = TxType.income →
      spentAmount ⟨t :: txs, cats, buds⟩ uid b s e =
        spentAmount ⟨txs, cats, buds⟩ uid b s e) ∧
    (∀ c : Nat, b.category_id = some c → t.category_id ≠ some c →
      spentAmount ⟨t :: txs, cats, buds⟩ uid b s e =
        spentAmount ⟨txs, cats, buds⟩ uid b s e) ∧
    (b.category_id = none → t.user_id = uid → t.type = TxType.expense →
      dle s t.date = true → dle t.date e = true →
      spentAmount ⟨t :: txs, cats, buds⟩ uid b s e =
        t.amount + spentAmount ⟨txs, cats, buds⟩ uid b s e) := by
  have main : spentAmount ⟨t :: txs, cats, buds⟩ uid b s e =
      (if t.user_id == uid && t.type == TxType.expense &&
          dle s t.date && dle t.date e && catMatch b.category_id t
       then t.amount else 0) +
      spentAmount ⟨txs, cats, buds⟩ uid b s e := by
    unfold spentAmount sumAmt
    cases hC : (t.user_id == uid && t.type == TxType.expense &&
        dle s t.date && dle t.date e && catMatch b.category_id t)
    · rw [List.filter_cons_of_neg (by simp [hC]), if_neg (by simp [hC])]
      simp
    · rw [List.filter_cons_of_pos (by simp [hC]), if_pos (by simp [hC])]
      simp
  refine ⟨main, ?_, ?_, ?_⟩
  · intro hty
    rw [main]
    have hb : (t.type == TxType.expense) = false := by
      rw [hty]; rfl
    simp [hb]
  · intro c hbc htc
    rw [main]
    have hcm : catMatch b.category_id t = false := by
      rw [hbc]
      simpa [catMatch] using htc
    simp [hcm]
  · intro hnone hu hty h1 h2
    rw [main]
    have hcm : catMatch b.category_id t = true := by
      rw [hnone]; rfl
    simp [hu, hty, h1, h2, hcm]

/-- Witness for C6: a concrete overall budget, with an in-range expense of
the user, at now = June 2024. -/
theorem spent_amount_scope_witness :
    spentAmount ⟨[⟨1, 1, none, TxType.expense, 50, ⟨2024, 6, 10, 0⟩⟩], [], []⟩
        1 ⟨1, 1, none, 100, Period.monthly⟩ ⟨2024, 6, 1, 0⟩ ⟨2024, 6, 30, 0⟩ =
      (if true then (50 : ℚ) else 0) + spentAmount ⟨[], [], []⟩ 1
        ⟨1, 1, none, 100, Period.monthly⟩ ⟨2024, 6, 1, 0⟩ ⟨2024, 6, 30, 0⟩ := by
  have h := spent_amount_scope [] [] [] 1 ⟨1, 1, none, 100, Period.monthly⟩
    2024 6 ⟨1, 1, none, TxType.expense, 50, ⟨2024, 6, 10, 0⟩⟩
    ⟨2024, 6, 1, 0⟩ ⟨2024, 6, 30, 0⟩ (by simp [alertRange, daysInMonth])
  exact h.1

/-! ## C5: category breakdown -/

theorem filter_comm_and {α : Type} (l : List α) (p q : α → Bool) :
    (l.filter q).filter p = l.filter (fun t => q t && p t) := by
  rw [List.filter_filter]
  apply List.filter_congr
  intro t _
  exact Bool.and_comm (p t) (q t)

/-- C5: every category-breakdown entry sums the amounts of **all** the
user's in-range transactions with that category (income and expense alike),
counts them, reports a null name for the null category, and every in-range
transaction's category is represented by an entry. -/
theorem category_breakdown_spec (db : DB) (input : GetSummaryInput)
    (s e : DateTime) (h : getDateRange input = Except.ok (s, e)) :
    ∃ sm, getSummary db input = Except.ok sm ∧
      (∀ entry ∈ sm.categories,
        entry.total_amount =
          sumAmt (db.transactions.filter (fun t =>
            txMatch input.user_id s e t && t.category_id == entry.category_id)) ∧
        entry.transaction_count =
          (db.transactions.filter (fun t =>
            txMatch input.user_id s e t &&
              t.category_id == entry.category_id)).length ∧
        (entry.category_id = none → entry.category_name = none)) ∧
      (∀ t ∈ db.transactions, txMatch input.user_id s e t = true →
        ∃ entry ∈ sm.categories, entry.category_id = t.category_id) := by
  refine ⟨mkSummary db input s e, getSummary_eq_ok db input s e h, ?_, ?_⟩
  · intro entry hmem
    simp only [mkSummary, List.mem_map] at hmem
    obtain ⟨k, hk, rfl⟩ := hmem
    refine ⟨?_, ?_, ?_⟩
    · show sumAmt ((db.transactions.filter (txMatch input.user_id s e)).filter
          (fun t => t.category_id == k)) = _
      rw [filter_comm_and]
    · show ((db.transactions.filter (txMatch input.user_id s e)).filter
          (fun t => t.category_id == k)).length = _
      rw [filter_comm_and]
    · intro hnone
      have hk0 : k = none := hnone
      show lookupName db k = none
      rw [hk0]
      rfl
  · intro t ht hmatch
    refine ⟨_, List.mem_map.mpr ⟨t.category_id, ?_, rfl⟩, rfl⟩
    exact (mem_firstOccs _ _).mpr
      (List.mem_map.mpr ⟨t, List.mem_filter.mpr ⟨ht, hmatch⟩, rfl⟩)

/-- A two-transaction ledger for the C5 witness: one 3000.00 income and one
500.00 expense in the same category within June 2024. -/
def c5db : DB :=
  ⟨[⟨1, 1, some 1, TxType.income, 3000, ⟨2024, 6, 5, 0⟩⟩,
    ⟨2, 1, some 1, TxType.expense, 500, ⟨2024, 6, 7, 0⟩⟩],
   [⟨1, 1, "Mixed"⟩], []⟩

/-- Witness for C5 at a concrete monthly input. -/
theorem category_breakdown_spec_witness :
    ∃ sm, getSummary c5db ⟨1, Period.monthly, 2024, some 6⟩ = Except.ok sm ∧
      (∀ entry ∈ sm.categories,
        entry.total_amount =
          sumAmt (c5db.transactions.filter (fun t =>
            txMatch 1 ⟨2024, 6, 1, 0⟩ ⟨2024, 6, 30, 86399999⟩ t &&
              t.category_id == entry.category_id)) ∧
        entry.transaction_count =
          (c5db.transactions.filter (fun t =>
            txMatch 1 ⟨2024, 6, 1, 0⟩ ⟨2024, 6, 30, 86399999⟩ t &&
              t.category_id == entry.category_id)).length ∧
        (entry.category_id = none → entry.category_name = none)) ∧
      (∀ t ∈ c5db.transactions,
        txMatch 1 ⟨2024, 6, 1, 0⟩ ⟨2024, 6, 30, 86399999⟩ t = true →
        ∃ entry ∈ sm.categories, entry.category_id = t.category_id) :=
  category_breakdown_spec c5db ⟨1, Period.monthly, 2024, some 6⟩
    ⟨2024, 6, 1, 0⟩ ⟨2024, 6, 30, 86399999⟩ (by simp [getDateRange, daysInMonth])

/-! ## C7: monthly filter exactness -/

/-- C7: a transaction enters the monthly summary of (year, month) iff it
belongs to the user and is dated anywhere inside that calendar month
(first day 00:00 .. last day 23:59:59.999): a non-matching transaction —
in particular one dated in the prior or following month — leaves the whole
summary unchanged, and a matching one adds its amount to the total of its
type. -/
theorem monthly_filter_exactness (txs : List Transaction)
    (cats : List Category) (buds : List Budget) (uid : Nat) (y : Int)
    (m : Nat) (t : Transaction) (hm1 : 1 ≤ m) (hm2 : m ≤ 12)
    (hv : t.date.Valid) :
    (¬(t.user_id = uid ∧ t.date.year = y ∧ t.date.month = m) →
      getSummary ⟨t :: txs, cats, buds⟩ ⟨uid, Period.monthly, y, some m⟩ =
        getSummary ⟨txs, cats, buds⟩ ⟨uid, Period.monthly, y, some m⟩) ∧
    ((t.user_id = uid ∧ t.date.year = y ∧ t.date.month = m) →
      ∀ sm sm',
        getSummary ⟨txs, cats, buds⟩ ⟨uid, Period.monthly, y, some m⟩ =
          Except.ok sm →
        getSummary ⟨t :: txs, cats, buds⟩ ⟨uid, Period.monthly, y, some m⟩ =
          Except.ok sm' →
        ((t.type = TxType.income →
            sm'.total_income = t.amount + sm.total_income ∧
            sm'.total_expenses = sm.total_expenses) ∧
         (t.type = TxType.expense →
            sm'.total_expenses = t.amount + sm.total_expenses ∧
            sm'.total_income = sm.total_income))) := by
  have hm0 : m ≠ 0 := by omega
  have hdr := getDateRange_monthly uid y m hm0
  constructor
  · intro hnot
    have hpf : txMatch uid ⟨y, m, 1, 0⟩ ⟨y, m, daysInMonth y m, 86399999⟩ t
        = false := by
      cases hb : txMatch uid ⟨y, m, 1, 0⟩ ⟨y, m, daysInMonth y m, 86399999⟩ t
      · rfl
      · exact absurd ((txMatch_monthly_iff hv uid y m).mp hb) hnot
    rw [getSummary_eq_ok _ _ _ _ hdr, getSummary_eq_ok _ _ _ _ hdr]
    simp only [mkSummary, lookupName]
    rw [List.filter_cons_of_neg (by simp [hpf]),
        List.filter_cons_of_neg (by simp [hpf]),
        List.filter_cons_of_neg (p := txMatch uid ⟨y, m, 1, 0⟩
          ⟨y, m, daysInMonth y m, 86399999⟩) (by simp [hpf])]
  · intro hyes sm sm' hok hok'
    rw [getSummary_eq_ok _ _ _ _ hdr] at hok hok'
    have hsm : mkSummary ⟨txs, cats, buds⟩ ⟨uid, Period.monthly, y, some m⟩
        ⟨y, m, 1, 0⟩ ⟨y, m, daysInMonth y m, 86399999⟩ = sm :=
      Except.ok.inj hok
    have hsm' : mkSummary ⟨t :: txs, cats, buds⟩
        ⟨uid, Period.monthly, y, some m⟩
        ⟨y, m, 1, 0⟩ ⟨y, m, daysInMonth y m, 86399999⟩ = sm' :=
      Except.ok.inj hok'
    subst hsm hsm'
    have hpt : txMatch uid ⟨y, m, 1, 0⟩ ⟨y, m, daysInMonth y m, 86399999⟩ t
        = true := (txMatch_monthly_iff hv uid y m).mpr hyes
    constructor
    · intro hty
      constructor
      · show sumAmt ((t :: txs).filter (fun t' =>
            txMatch uid ⟨y, m, 1, 0⟩ ⟨y, m, daysInMonth y m, 86399999⟩ t' &&
              t'.type == TxType.income)) = _
        rw [List.filter_cons_of_pos (by simp [hpt, hty])]
        simp [sumAmt, mkSummary]
      · show sumAmt ((t :: txs).filter (fun t' =>
            txMatch uid ⟨y, m, 1, 0⟩ ⟨y, m, daysInMonth y m, 86399999⟩ t' &&
              t'.type == TxType.expense)) = _
        rw [List.filter_cons_of_neg (by simp [hpt, hty])]
        simp [sumAmt, mkSummary]
    · intro hty
      constructor
      · show sumAmt ((t :: txs).filter (fun t' =>
            txMatch uid ⟨y, m, 1, 0⟩ ⟨y, m, daysInMonth y m, 86399999⟩ t' &&
              t'.type == TxType.expense)) = _
        rw [List.filter_cons_of_pos (by simp [hpt, hty])]
        simp [sumAmt, mkSummary]
      · show sumAmt ((t :: txs).filter (fun t' =>
            txMatch uid ⟨y, m, 1, 0⟩ ⟨y, m, daysInMonth y m, 86399999⟩ t' &&
              t'.type == TxType.income)) = _
        rw [List.filter_cons_of_neg (by simp [hpt, hty])]
        simp [sumAmt, mkSummary]

/-- Witness for C7: an expense dated May 31 2024 23:30 (last day of the
prior month) does not change the June 2024 summary. -/
theorem monthly_filter_exactness_witness :
    getSummary ⟨[⟨1, 1, none, TxType.expense, 100, ⟨2024, 5, 31, 84600000⟩⟩],
        [], []⟩ ⟨1, Period.monthly, 2024, some 6⟩ =
      getSummary ⟨[], [], []⟩ ⟨1, Period.monthly, 2024, some 6⟩ :=
  (monthly_filter_exactness [] [] [] 1 2024 6
      ⟨1, 1, none, TxType.expense, 100, ⟨2024, 5, 31, 84600000⟩⟩
      (by norm_num) (by norm_num) (by decide)).1 (by decide)

/-! ## C1: alert threshold -/

/-- Ledger refuting the rounded-threshold reading: one monthly budget of
200.00 with a single in-range expense of 159.99, so the raw percentage is
79.995 (below 80) while the 2-decimal rounding of it is 80.00. -/
def c1db : DB :=
  ⟨[⟨1, 1, none, TxType.expense, 15999 / 100, ⟨2024, 6, 10, 0⟩⟩], [],
   [⟨1, 1, none, 200, Period.monthly⟩]⟩

/-- Counterexample to C1 as stated: the percentage rounded half-up to two
decimals is ≥ 80, yet getBudgetAlerts produces no alert, because the source
applies the 80 threshold to the unrounded percentage. -/
theorem alert_threshold_rounding_cex :
    80 ≤ round2 (rawPercentage c1db 1 ⟨1, 1, none, 200, Period.monthly⟩
        2024 6) ∧
    getBudgetAlerts c1db 1 2024 6 = [] := by
  constructor
  · norm_num [rawPercentage, round2, spentAmount, sumAmt, alertRange,
      dle, catMatch, daysInMonth, isLeap, c1db, List.filter]
  · norm_num [getBudgetAlerts, alertOf, spentAmount, sumAmt, alertRange,
      dle, catMatch, lookupName, round2, daysInMonth, isLeap, c1db,
      List.filter, List.filterMap, List.insertionSort]

/-- C1 amended: an alert for a budget is produced iff the **unrounded**
percentage spent/budget·100 (0 when the budget amount is not positive) is
≥ 80; the reported `percentage_used` is that value rounded half-up to two
decimals.  Spending exactly 80.00% alerts and 79.99% does not. -/
theorem alert_iff_unrounded_percentage (db : DB) (uid : Nat) (nowY : Int)
    (nowM : Nat) (b : Budget) (hb : b ∈ db.budgets) (hu : b.user_id = uid)
    (hids : (db.budgets.map Budget.id).Nodup) :
    ((∃ a ∈ getBudgetAlerts db uid nowY nowM, a.budget_id = b.id) ↔
      80 ≤ rawPercentage db uid b nowY nowM) ∧
    (∀ a ∈ getBudgetAlerts db uid nowY nowM, a.budget_id = b.id →
      a.percentage_used = round2 (rawPercentage db uid b nowY nowM) ∧
      a.budget_amount = b.amount ∧
      a.spent_amount = spentAmount db uid b
        (alertRange b.period nowY nowM).1 (alertRange b.period nowY nowM).2 ∧
      a.period = b.period) := by
  have halert : ∀ b' : Budget, alertOf db uid nowY nowM b' =
      if 80 ≤ rawPercentage db uid b' nowY nowM then
        some { budget_id := b'.id
               category_name := lookupName db b'.category_id
               budget_amount := b'.amount
               spent_amount := spentAmount db uid b'
                 (alertRange b'.period nowY nowM).1
                 (alertRange b'.period nowY nowM).2
               percentage_used := round2 (rawPercentage db uid b' nowY nowM)
               period := b'.period }
      else none := fun b' => rfl
  have hmem : ∀ a : BudgetAlert, a ∈ getBudgetAlerts db uid nowY nowM ↔
      a ∈ (db.budgets.filter (fun x => x.user_id == uid)).filterMap
        (alertOf db uid nowY nowM) := by
    intro a
    unfold getBudgetAlerts
    exact (List.perm_insertionSort alertGE _).mem_iff
  constructor
  · constructor
    · rintro ⟨a, ha, haid⟩
      rw [hmem] at ha
      obtain ⟨b', hb', hfb'⟩ := List.mem_filterMap.mp ha
      rw [halert b'] at hfb'
      by_cases hc : 80 ≤ rawPercentage db uid b' nowY nowM
      · rw [if_pos hc] at hfb'
        have hrec := Option.some.inj hfb'
        have hid' : b'.id = b.id := by rw [← haid, ← hrec]
        have hbmem : b' ∈ db.budgets := (List.mem_filter.mp hb').1
        have hbb : b' = b := List.inj_on_of_nodup_map hids hbmem hb hid'
        rwa [hbb] at hc
      · rw [if_neg hc] at hfb'
        exact absurd hfb' (by simp)
    · intro hc
      refine ⟨{ budget_id := b.id
                category_name := lookupName db b.category_id
                budget_amount := b.amount
                spent_amount := spentAmount db uid b
                  (alertRange b.period nowY nowM).1
                  (alertRange b.period nowY nowM).2
                percentage_used := round2 (rawPercentage db uid b nowY nowM)
                period := b.period },
        (hmem _).mpr (List.mem_filterMap.mpr ⟨b, ?_, ?_⟩), rfl⟩
      · exact List.mem_filter.mpr ⟨hb, by simp [hu]⟩
      · rw [halert b, if_pos hc]
  · intro a ha haid
    rw [hmem] at ha
    obtain ⟨b', hb', hfb'⟩ := List.mem_filterMap.mp ha
    rw [halert b'] at hfb'
    by_cases hc : 80 ≤ rawPercentage db uid b' nowY nowM
    · rw [if_pos hc] at hfb'
      have hrec := Option.some.inj hfb'
      have hid' : b'.id = b.id := by rw [← haid, ← hrec]
      have hbmem : b' ∈ db.budgets := (List.mem_filter.mp hb').1
      have hbb : b' = b := List.inj_on_of_nodup_map hids hbmem hb hid'
      subst hbb
      rw [← hrec]
      exact ⟨rfl, rfl, rfl, rfl⟩
    · rw [if_neg hc] at hfb'
      exact absurd hfb' (by simp)

/-- A ledger spending exactly 80.00% of a 100.00 monthly budget. -/
def c1db80 : DB :=
  ⟨[⟨1, 1, none, TxType.expense, 80, ⟨2024, 6, 10, 0⟩⟩], [],
   [⟨1, 1, none, 100, Period.monthly⟩]⟩

/-- Witness for the amended C1: at exactly 80% usage the alert is present. -/
theorem alert_iff_unrounded_percentage_witness :
    (∃ a ∈ getBudgetAlerts c1db80 1 2024 6,
      a.budget_id = (1 : Nat)) := by
  have h := alert_iff_unrounded_percentage c1db80 1 2024 6
    ⟨1, 1, none, 100, Period.monthly⟩ (by simp [c1db80]) rfl
    (by simp [c1db80])
  exact h.1.mpr (by
    norm_num [rawPercentage, spentAmount, sumAmt, alertRange, dle,
      catMatch, daysInMonth, isLeap, c1db80, List.filter])


/-! ## C2: the alert period's last day -/

/-- Ledger for the C2 failing input: at now = June 2024, user 1 has a
monthly budget of 100.00 and a single expense of 100.00 dated
June 30 2024 12:00:00 — any time-of-day on the last calendar day of the
month. -/
def c2db : DB :=
  ⟨[⟨1, 1, none, TxType.expense, 100, ⟨2024, 6, 30, 43200000⟩⟩], [],
   [⟨1, 1, none, 100, Period.monthly⟩]⟩

/-- Evaluation of the code at the C2 failing input: the transaction lies
inside the full-day month range claimed by the spec (first day 00:00 ..
last day 23:59:59.999) and would put spending at 100% of budget, yet the
source's range — which ends at June 30 **00:00** (`new Date(y, m, 0)` has
no time component) — excludes it, so no alert is produced. -/
theorem alert_last_day_excluded_eval :
    getBudgetAlerts c2db 1 2024 6 = [] ∧
    (dle ⟨2024, 6, 1, 0⟩ ⟨2024, 6, 30, 43200000⟩ &&
      dle ⟨2024, 6, 30, 43200000⟩ ⟨2024, 6, 30, 86399999⟩) = true ∧
    spentAmount c2db 1 ⟨1, 1, none, 100, Period.monthly⟩
      ⟨2024, 6, 1, 0⟩ ⟨2024, 6, 30, 86399999⟩ = 100 ∧
    spentAmount c2db 1 ⟨1, 1, none, 100, Period.monthly⟩
      (alertRange Period.monthly 2024 6).1
      (alertRange Period.monthly 2024 6).2 = 0 := by
  refine ⟨?_, by decide, ?_, ?_⟩
  · norm_num [getBudgetAlerts, alertOf, spentAmount, sumAmt, alertRange,
      dle, catMatch, lookupName, round2, daysInMonth, isLeap, c2db,
      List.filter, List.filterMap, List.insertionSort]
  · norm_num [spentAmount, sumAmt, dle, catMatch, c2db, List.filter]
  · norm_num [spentAmount, sumAmt, alertRange, dle, catMatch, daysInMonth,
      isLeap, c2db, List.filter]

/-! ## C4: yearly monthly series -/

theorem fillMonthly_length (rows : List (Nat × TxType × ℚ)) :
    (fillMonthly rows).length = 12 := by
  unfold fillMonthly
  rw [foldl_map_comm]
  simp

/-- The i-th entry (i < 12) of the filled monthly series is month i+1 with
the per-type sums of the transactions of that month. -/
theorem fillMonthly_spec (ctxs : List Transaction) (i : Nat) (hi : i < 12) :
    (fillMonthly ((firstOccs (ctxs.map (fun t => (t.date.month, t.type)))).map
        (monthlyRow ctxs)))[i]? =
      some ⟨i + 1,
        sumAmt (ctxs.filter (fun t =>
          t.date.month == i + 1 && t.type == TxType.income)),
        sumAmt (ctxs.filter (fun t =>
          t.date.month == i + 1 && t.type == TxType.expense))⟩ := by
  have hS : ∀ r ∈ (firstOccs (ctxs.map (fun t => (t.date.month, t.type)))).map
      (monthlyRow ctxs), r.2.2 =
        (fun m ty => sumAmt (ctxs.filter (fun t =>
          t.date.month == m && t.type == ty))) r.1 r.2.1 := by
    intro r hr
    obtain ⟨g, _, rfl⟩ := List.mem_map.mp hr
    rfl
  have hkeys : ((firstOccs (ctxs.map (fun t => (t.date.month, t.type)))).map
      (monthlyRow ctxs)).map (fun r => (r.1, r.2.1)) =
        firstOccs (ctxs.map (fun t => (t.date.month, t.type))) := by
    rw [List.map_map]
    have hcomp : ((fun r : Nat × TxType × ℚ => (r.1, r.2.1)) ∘
        monthlyRow ctxs) = id := funext fun g => by simp [monthlyRow]
    rw [hcomp, List.map_id]
  have hresolve : ∀ ty : TxType,
      (if ((i + 1 : Nat), ty) ∈
          firstOccs (ctxs.map (fun t => (t.date.month, t.type)))
       then sumAmt (ctxs.filter (fun t =>
          t.date.month == i + 1 && t.type == ty))
       else (0 : ℚ)) =
        sumAmt (ctxs.filter (fun t =>
          t.date.month == i + 1 && t.type == ty)) := by
    intro ty
    by_cases hcm : ((i + 1 : Nat), ty) ∈
        firstOccs (ctxs.map (fun t => (t.date.month, t.type)))
    · rw [if_pos hcm]
    · rw [if_neg hcm]
      have hempty : ctxs.filter (fun t =>
          t.date.month == i + 1 && t.type == ty) = [] := by
        rw [List.filter_eq_nil_iff]
        intro t ht hp
        apply hcm
        rw [mem_firstOccs]
        refine List.mem_map.mpr ⟨t, ht, ?_⟩
        simp only [Bool.and_eq_true, beq_iff_eq] at hp
        rw [hp.1, hp.2]
      rw [hempty]
      rfl
  obtain ⟨hmo, hinc, hexp⟩ := applyRows_spec
    (fun m ty => sumAmt (ctxs.filter (fun t =>
      t.date.month == m && t.type == ty)))
    ((firstOccs (ctxs.map (fun t => (t.date.month, t.type)))).map
      (monthlyRow ctxs)) hS ⟨i + 1, 0, 0⟩
  unfold fillMonthly
  rw [foldl_map_comm, List.getElem?_map, List.getElem?_map,
    List.getElem?_range hi]
  simp only [Option.map_some']
  rcases hFs : List.foldl (fun en r => applyRow r en)
      (⟨i + 1, 0, 0⟩ : MonthEntry)
      ((firstOccs (ctxs.map (fun t => (t.date.month, t.type)))).map
        (monthlyRow ctxs)) with ⟨fm, fi, fe⟩
  rw [hkeys] at hinc hexp
  rw [hFs] at hmo hinc hexp
  dsimp only at hmo hinc hexp
  subst hmo
  rw [hFs, hinc, hexp, hresolve TxType.income, hresolve TxType.expense]

/-- C4: for every yearly input, `monthly_data` is present with exactly 12
entries for months 1..12 in ascending order, each holding the per-type sums
of the user's transactions dated in that calendar month of the year (0 when
there are none); for a monthly input `monthly_data` is absent. -/
theorem yearly_monthly_data (db : DB) (uid : Nat) (y : Int) (mo : Option Nat)
    (hv : ∀ t ∈ db.transactions, t.date.Valid) :
    (∃ sm md, getSummary db ⟨uid, Period.yearly, y, mo⟩ = Except.ok sm ∧
      sm.monthly_data = some md ∧ md.length = 12 ∧
      (∀ i : Nat, i < 12 →
        md[i]? = some
          { month := i + 1
            income := sumAmt (db.transactions.filter (fun t =>
              t.user_id == uid && t.date.year == y &&
                t.date.month == i + 1 && t.type == TxType.income))
            expenses := sumAmt (db.transactions.filter (fun t =>
              t.user_id == uid && t.date.year == y &&
                t.date.month == i + 1 && t.type == TxType.expense)) })) ∧
    (∀ m : Nat, 1 ≤ m → m ≤ 12 → ∀ sm,
      getSummary db ⟨uid, Period.monthly, y, some m⟩ = Except.ok sm →
      sm.monthly_data = none) := by
  constructor
  · have hdr := getDateRange_yearly ⟨uid, Period.yearly, y, mo⟩ rfl
    refine ⟨mkSummary db ⟨uid, Period.yearly, y, mo⟩ ⟨y, 1, 1, 0⟩
        ⟨y, 12, 31, 86399999⟩,
      fillMonthly ((firstOccs ((db.transactions.filter
        (txMatch uid ⟨y, 1, 1, 0⟩ ⟨y, 12, 31, 86399999⟩)).map
          (fun t => (t.date.month, t.type)))).map
        (monthlyRow (db.transactions.filter
          (txMatch uid ⟨y, 1, 1, 0⟩ ⟨y, 12, 31, 86399999⟩)))),
      getSummary_eq_ok db _ _ _ hdr, ?_, fillMonthly_length _, ?_⟩
    · simp [mkSummary]
    · intro i hi
      rw [fillMonthly_spec _ i hi]
      have hconv : ∀ ty : TxType,
          (db.transactions.filter
            (txMatch uid ⟨y, 1, 1, 0⟩ ⟨y, 12, 31, 86399999⟩)).filter
              (fun t => t.date.month == i + 1 && t.type == ty) =
          db.transactions.filter (fun t =>
            t.user_id == uid && t.date.year == y &&
              t.date.month == i + 1 && t.type == ty) := by
        intro ty
        rw [filter_comm_and]
        apply List.filter_congr
        intro t ht
        rw [Bool.eq_iff_iff]
        simp only [Bool.and_eq_true, beq_iff_eq]
        rw [txMatch_yearly_iff (hv t ht) uid y]
        tauto
      rw [hconv TxType.income, hconv TxType.expense]
  · intro m h1 _ sm hok
    have hm0 : m ≠ 0 := by omega
    rw [getSummary_eq_ok _ _ _ _ (getDateRange_monthly uid y m hm0)] at hok
    have hsm := Except.ok.inj hok
    subst hsm
    simp [mkSummary]

/-- Ledger for the C4 witness: activity only in January and February 2024. -/
def c4db : DB :=
  ⟨[⟨1, 1, none, TxType.income, 100, ⟨2024, 1, 15, 0⟩⟩,
    ⟨2, 1, none, TxType.expense, 50, ⟨2024, 2, 10, 0⟩⟩], [], []⟩

/-- Witness for C4 at a concrete ledger with transactions only in January
and February. -/
theorem yearly_monthly_data_witness :
    (∃ sm md, getSummary c4db ⟨1, Period.yearly, 2024, none⟩ = Except.ok sm ∧
      sm.monthly_data = some md ∧ md.length = 12 ∧
      (∀ i : Nat, i < 12 →
        md[i]? = some
          { month := i + 1
            income := sumAmt (c4db.transactions.filter (fun t =>
              t.user_id == 1 && t.date.year == 2024 &&
                t.date.month == i + 1 && t.type == TxType.income))
            expenses := sumAmt (c4db.transactions.filter (fun t =>
              t.user_id == 1 && t.date.year == 2024 &&
                t.date.month == i + 1 && t.type == TxType.expense)) })) ∧
    (∀ m : Nat, 1 ≤ m → m ≤ 12 → ∀ sm,
      getSummary c4db ⟨1, Period.monthly, 2024, some m⟩ = Except.ok sm →
      sm.monthly_data = none) :=
  yearly_monthly_data c4db 1 2024 none (by
    intro t ht
    simp only [c4db, List.mem_cons, List.not_mem_nil, or_false] at ht
    rcases ht with h | h <;> subst h <;> decide)

/-! ## C10: user isolation -/

/-- Ledger pair refuting C10 as stated: user 1's budget references category
id 1, which is **owned by user 2**; the two states agree on everything user
1 owns, but user 2's category is renamed. -/
def c10db1 : DB :=
  ⟨[⟨1, 1, some 1, TxType.expense, 100, ⟨2024, 6, 10, 0⟩⟩],
   [⟨1, 2, "Food"⟩], [⟨1, 1, some 1, 100, Period.monthly⟩]⟩

/-- Same ledger with user 2's category renamed to "Drinks". -/
def c10db2 : DB :=
  ⟨[⟨1, 1, some 1, TxType.expense, 100, ⟨2024, 6, 10, 0⟩⟩],
   [⟨1, 2, "Drinks"⟩], [⟨1, 1, some 1, 100, Period.monthly⟩]⟩

/-- Counterexample to C10 as stated: the two ledgers agree on all records
owned by user 1, yet user 1's alerts differ (the alert's category_name is
looked up by id with no owner filter, so renaming another user's category
changes user 1's output). -/
theorem user_isolation_cex :
    c10db1.transactions.filter (fun t => t.user_id == 1) =
      c10db2.transactions.filter (fun t => t.user_id == 1) ∧
    c10db1.budgets.filter (fun b => b.user_id == 1) =
      c10db2.budgets.filter (fun b => b.user_id == 1) ∧
    c10db1.categories.filter (fun c => c.user_id == 1) =
      c10db2.categories.filter (fun c => c.user_id == 1) ∧
    getBudgetAlerts c10db1 1 2024 6 ≠ getBudgetAlerts c10db2 1 2024 6 := by
  refine ⟨rfl, rfl, rfl, ?_⟩
  norm_num [getBudgetAlerts, alertOf, spentAmount, sumAmt, alertRange,
    dle, catMatch, lookupName, round2, daysInMonth, isLeap, c10db1, c10db2,
    List.filter, List.filterMap, List.insertionSort, List.find?]
  decide

/-- C10 amended: the outputs for user u depend only on u's own transactions
and budgets together with the category table (which the handlers consult by
id, without an owner filter): two states agreeing on those produce
identical summaries and alerts. -/
theorem user_isolation_amended (db1 db2 : DB) (uid : Nat)
    (ht : db1.transactions.filter (fun t => t.user_id == uid) =
          db2.transactions.filter (fun t => t.user_id == uid))
    (hbud : db1.budgets.filter (fun b => b.user_id == uid) =
            db2.budgets.filter (fun b => b.user_id == uid))
    (hc : db1.categories = db2.categories) :
    (∀ input : GetSummaryInput, input.user_id = uid →
      getSummary db1 input = getSummary db2 input) ∧
    (∀ (nowY : Int) (nowM : Nat),
      getBudgetAlerts db1 uid nowY nowM = getBudgetAlerts db2 uid nowY nowM) := by
  have hfilter : ∀ (r : Transaction → Bool),
      db1.transactions.filter (fun t => (t.user_id == uid) && r t) =
      db2.transactions.filter (fun t => (t.user_id == uid) && r t) := by
    intro r
    rw [filter_user_and, filter_user_and, ht]
  have hlook : lookupName db1 = lookupName db2 :=
    funext fun cid => by simp [lookupName, hc]
  constructor
  · intro input hui
    subst hui
    cases hdr : getDateRange input with
    | error msg => simp [getSummary, hdr]
    | ok se =>
        obtain ⟨s, e⟩ := se
        rw [getSummary_eq_ok _ _ _ _ hdr, getSummary_eq_ok _ _ _ _ hdr]
        have hag : ∀ (ex : Transaction → Bool),
            db1.transactions.filter (fun t =>
              txMatch input.user_id s e t && ex t) =
            db2.transactions.filter (fun t =>
              txMatch input.user_id s e t && ex t) := by
          intro ex
          have h1 : ∀ (l : List Transaction),
              l.filter (fun t => txMatch input.user_id s e t && ex t) =
                l.filter (fun t => (t.user_id == input.user_id) &&
                  (dle s t.date && (dle t.date e && ex t))) :=
            fun l => List.filter_congr (fun t _ => by
              simp [txMatch, Bool.and_assoc])
          rw [h1, h1, hfilter]
        have hag3 : db1.transactions.filter (txMatch input.user_id s e) =
            db2.transactions.filter (txMatch input.user_id s e) := by
          have h1 : ∀ (l : List Transaction),
              l.filter (txMatch input.user_id s e) =
                l.filter (fun t => (t.user_id == input.user_id) &&
                  (dle s t.date && (dle t.date e && true))) :=
            fun l => List.filter_congr (fun t _ => by
              simp [txMatch, Bool.and_assoc])
          rw [h1, h1, hfilter]
        unfold mkSummary
        rw [hag (fun t => t.type == TxType.income),
          hag (fun t => t.type == TxType.expense), hag3, hlook]
  · intro nowY nowM
    unfold getBudgetAlerts
    have halertf : alertOf db1 uid nowY nowM = alertOf db2 uid nowY nowM := by
      funext b
      unfold alertOf
      dsimp only
      have hsp : spentAmount db1 uid b (alertRange b.period nowY nowM).1
          (alertRange b.period nowY nowM).2 =
        spentAmount db2 uid b (alertRange b.period nowY nowM).1
          (alertRange b.period nowY nowM).2 := by
        unfold spentAmount sumAmt
        have h1 : ∀ (l : List Transaction),
            l.filter (fun t => t.user_id == uid &&
              t.type == TxType.expense &&
              dle (alertRange b.period nowY nowM).1 t.date &&
              dle t.date (alertRange b.period nowY nowM).2 &&
              catMatch b.category_id t) =
              l.filter (fun t => (t.user_id == uid) &&
                (t.type == TxType.expense &&
                  (dle (alertRange b.period nowY nowM).1 t.date &&
                    (dle t.date (alertRange b.period nowY nowM).2 &&
                      catMatch b.category_id t)))) :=
          fun l => List.filter_congr (fun t _ => by
            simp [Bool.and_assoc])
        rw [h1, h1, hfilter]
      rw [hsp, hlook]
    rw [hbud, halertf]

/-- A second user's extra transaction for the C10 witness. -/
def c10w1 : DB :=
  ⟨[⟨1, 1, none, TxType.expense, 90, ⟨2024, 6, 10, 0⟩⟩], [],
   [⟨1, 1, none, 100, Period.monthly⟩]⟩

/-- The same ledger with a transaction of user 2 added. -/
def c10w2 : DB :=
  ⟨[⟨1, 1, none, TxType.expense, 90, ⟨2024, 6, 10, 0⟩⟩,
    ⟨2, 2, none, TxType.expense, 500, ⟨2024, 6, 11, 0⟩⟩], [],
   [⟨1, 1, none, 100, Period.monthly⟩]⟩

/-- Witness for the amended C10: adding another user's transaction changes
neither user 1's summary nor user 1's alerts. -/
theorem user_isolation_amended_witness :
    getSummary c10w1 ⟨1, Period.monthly, 2024, some 6⟩ =
      getSummary c10w2 ⟨1, Period.monthly, 2024, some 6⟩ ∧
    getBudgetAlerts c10w1 1 2024 6 = getBudgetAlerts c10w2 1 2024 6 := by
  have h := user_isolation_amended c10w1 c10w2 1 rfl rfl rfl
  exact ⟨h.1 ⟨1, Period.monthly, 2024, some 6⟩ rfl, h.2 2024 6⟩

end FinanceDash
